import Mathlib

/-!
Verification of the Data-Ingestion repository's transformation engine,
column-value normalizers and SQL identifier quoter
(src/data_processing.py), against the natural-language specification.

Python strings are modelled as `List Char` (with `String` wrappers for
the repository's public entry points), Python cell values as the
inductive `Value` below, pandas DataFrames as ordered association lists
from column name to column values, and raised Python exceptions as
`Except PyError`.
-/

set_option maxHeartbeats 1000000

/-- A Python cell value as it occurs in this program: a string, an `int`,
a `float` (modelled as a rational: every IEEE double is rational, and the
program performs no arithmetic where rounding could matter), a bool, or
the missing-marker (`None` / `NaN`, which pandas' `isna`/`fillna` treat
alike). -/
inductive Value where
  | str (s : List Char)
  | int (n : Int)
  | float (q : Rat)
  | bool (b : Bool)
  | nan
deriving DecidableEq, Repr

/-- A raised Python exception, by class (with the offending name for
`NameError`). -/
inductive PyError where
  | nameError (n : List Char)
  | valueError
  | typeError
  | attributeError
deriving DecidableEq, Repr

deriving instance DecidableEq for Except

/-- The six characters Python's `str.split()` (no argument) treats as
whitespace for ASCII text. -/
def pyIsSpace (c : Char) : Bool :=
  c = ' ' || c = '\t' || c = '\n' || c = '\r' || c = '\x0b' || c = '\x0c'

/-- Model of `str.strip()` on ASCII text: drop leading and trailing
whitespace. -/
def pyStrip (s : List Char) : List Char :=
  ((s.dropWhile pyIsSpace).reverse.dropWhile pyIsSpace).reverse

/-- Digit accumulator for `int(str)`: after an optional sign, Python
accepts a nonempty digit sequence in which single underscores may appear
between two digits (PEP 515). `prevDigit` records whether the previous
character was a digit. -/
def pyIntDigits : Int → Bool → List Char → Option Int
  | acc, prevDigit, [] => if prevDigit then some acc else none
  | acc, prevDigit, c :: cs =>
    if c.isDigit then
      pyIntDigits (acc * 10 + (c.toNat - 48 : Nat)) true cs
    else if c = '_' && prevDigit then
      pyIntDigits acc false cs
    else
      none

/-- Python's `int(s)` on an ASCII string: strip surrounding whitespace,
allow one optional sign, then a digit sequence; `none` models the raised
`ValueError`. -/
def pyIntOfString (s : List Char) : Option Int :=
  match pyStrip s with
  | '+' :: rest => pyIntDigits 0 false rest
  | '-' :: rest => (pyIntDigits 0 false rest).map (fun n => -n)
  | rest => pyIntDigits 0 false rest

/-- Python's `int(float)`: truncation toward zero. -/
def ratTrunc (q : Rat) : Int :=
  Int.tdiv q.num (Int.ofNat q.den)

/-- Decimal digits of the proper fraction `n/d` (`n < d`), most
significant first, up to `fuel` digits; `str(float)` prints at most 17
significant digits, which the fuel bounds. -/
def decDigits : Nat → Nat → Nat → List Char
  | 0, _, _ => []
  | _ + 1, 0, _ => []
  | fuel + 1, n, d =>
    let n10 := n * 10
    Char.ofNat (48 + n10 / d) :: decDigits fuel (n10 % d) d

/-- Python's `str` (= `repr`) of a finite float with a non-integral
value, for floats whose value has a short decimal expansion (the only
ones this program prints): sign, integer part, `'.'`, fraction digits. -/
def pyFloatRepr (q : Rat) : List Char :=
  let sgn : List Char := if q < 0 then ['-'] else []
  let n := q.num.natAbs
  let d := q.den
  sgn ++ (toString (n / d)).data ++ '.' :: decDigits 17 (n % d) d

/-- Python's `str` of a cell value (`str(int)`, `str(float)` with a
trailing `.0` on integral floats, `str(None/nan) = "nan"` as pandas
`astype(str)` renders missing values, `str(bool)`). -/
def pyStrOfValue : Value → List Char
  | .str s => s
  | .int n => (toString n).data
  | .float q => if q.den = 1 then (toString q.num).data ++ ['.', '0'] else pyFloatRepr q
  | .bool b => if b then ['T', 'r', 'u', 'e'] else ['F', 'a', 'l', 's', 'e']
  | .nan => ['n', 'a', 'n']

/-! ## SQL identifier quoter (src/data_processing.py lines 102-137) -/

/-- Core of `quote_identifier` (src/data_processing.py line 111's test):
`identifier.startswith('"') and identifier.endswith('"')`. -/
def isWrappedInQuotes (s : List Char) : Bool :=
  s.head? = some '"' && s.getLast? = some '"'

/-- Core of `quote_identifier` (src/data_processing.py lines 102-114) on
the character list: if not already starting and ending with the
double-quote character, remove every double-quote character
(`identifier.replace('"', '')`) and wrap the result in a fresh pair of
double quotes. -/
def quoteIdentifierCore (s : List Char) : List Char :=
  if isWrappedInQuotes s then s
  else '"' :: (s.filter (fun c => c ≠ '"')) ++ ['"']

/-- Model of `quote_identifier` from src/data_processing.py, on
`String`. -/
def quote_identifier (s : String) : String :=
  String.mk (quoteIdentifierCore s.data)

/-- Model of `str.split()` with no argument: split on runs of
whitespace, discarding empty tokens; `acc` holds the current token
reversed. -/
def pySplitAux : List Char → List Char → List (List Char)
  | [], acc => if acc = [] then [] else [acc.reverse]
  | c :: cs, acc =>
    if pyIsSpace c then
      if acc = [] then pySplitAux cs [] else acc.reverse :: pySplitAux cs []
    else
      pySplitAux cs (c :: acc)

/-- Model of `sql_query.split()` from src/data_processing.py
line 129. -/
def pySplit (s : List Char) : List (List Char) := pySplitAux s []

/-- Model of the keyword test of src/data_processing.py line 133,
`previous_word.upper() in [...]` against FROM and JOIN;
`Char.toUpper` matches Python `str.upper` on ASCII. -/
def isFromJoin (w : List Char) : Bool :=
  w.map Char.toUpper = "FROM".data || w.map Char.toUpper = "JOIN".data

/-- The loop of `process_sql_query` (src/data_processing.py lines
131-136): `previous_word` is the token as just appended to
`processed_parts`, i.e. after any quoting. -/
def scanQuoteAux : List Char → List (List Char) → List (List Char)
  | _, [] => []
  | prev, w :: ws =>
    let w2 := if isFromJoin prev then quoteIdentifierCore w else w
    w2 :: scanQuoteAux w2 ws

/-- Model of `' '.join(processed_parts)` (src/data_processing.py
line 137). -/
def joinSpace (ts : List (List Char)) : List Char :=
  List.intercalate [' '] ts

/-- Model of `process_sql_query` from src/data_processing.py lines
121-137: `previous_word` starts as the empty string. -/
def process_sql_query (s : String) : String :=
  String.mk (joinSpace (scanQuoteAux [] (pySplit s.data)))

/-- Modelled from the spec: the spec's reading of `preprocessQuery`, in
which the quoting decision for a token looks at the immediately
preceding token *of the tokenization* (the original token), not at the
already-processed previous token. -/
def preprocessQuerySpecScan : List Char → List (List Char) → List (List Char)
  | _, [] => []
  | prev, w :: ws =>
    (if isFromJoin prev then quoteIdentifierCore w else w) :: preprocessQuerySpecScan w ws

/-- Modelled from the spec: `preprocessQuery` per the spec's words. -/
def preprocessQuerySpec (s : String) : String :=
  String.mk (joinSpace (preprocessQuerySpecScan [] (pySplit s.data)))

/-! ## Column value normalizers (src/data_processing.py lines 144-189,
src/utilities.py lines 25-37) -/

/-- Model of the dollar-sign removal of src/data_processing.py lines 152
and 169: the separator is a single character, so `str.replace` with the
empty replacement is a filter removing every dollar-sign character. -/
def pyReplaceDollar (s : List Char) : List Char :=
  s.filter (fun c => c ≠ '$')

/-- Model of `remove_dollar_sign` from src/data_processing.py lines
144-154: on a string, every dollar-sign character is removed and the
remainder parsed with `int`; on a numeric value, `int(value)` truncates
toward zero; `int` of the missing marker (`float('nan')`) raises
`ValueError`, and `int` of a bool yields 0/1. -/
def remove_dollar_sign (v : Value) : Except PyError Value :=
  match v with
  | .str s =>
    match pyIntOfString (pyReplaceDollar s) with
    | some n => .ok (.int n)
    | none => .error .valueError
  | .int n => .ok (.int n)
  | .float q => .ok (.int (ratTrunc q))
  | .bool b => .ok (.int (if b then 1 else 0))
  | .nan => .error .valueError

/-- Modelled from the spec: `stripCurrencyToInt` per the spec's words —
strip *a leading* currency symbol if the value is textual, then parse
the remainder as an integer; numeric values truncate/cast; `ParseError`
(here `ValueError`) exactly when the cleaned text is not
integer-parseable. -/
def stripCurrencyToIntSpec (v : Value) : Except PyError Value :=
  match v with
  | .str s =>
    let cleaned := match s with
      | '$' :: rest => rest
      | other => other
    match pyIntOfString cleaned with
    | some n => .ok (.int n)
    | none => .error .valueError
  | .int n => .ok (.int n)
  | .float q => .ok (.int (ratTrunc q))
  | .bool b => .ok (.int (if b then 1 else 0))
  | .nan => .error .valueError

/-- Python's `float(s)` on an ASCII string, for the plain decimal forms
this program feeds it: optional sign, digits with at most one dot
(at least one digit overall). Exponents, infinity/nan spellings and
underscore grouping are not produced by this program's data paths and
are modelled as parse failures. -/
def pyFloatOfString (s : List Char) : Option Rat :=
  let core := fun (t : List Char) =>
    let intPart := t.takeWhile Char.isDigit
    let rest := t.dropWhile Char.isDigit
    match rest with
    | [] => if intPart = [] then none
            else some (mkRat (Int.ofNat (Nat.ofDigits 10 (intPart.map (fun c => c.toNat - 48)).reverse)) 1)
    | '.' :: frac =>
      if frac.all Char.isDigit && (intPart ≠ [] || frac ≠ []) then
        some (mkRat (Int.ofNat (Nat.ofDigits 10 ((intPart ++ frac).map (fun c => c.toNat - 48)).reverse))
                    (10 ^ frac.length))
      else none
    | _ => none
  match pyStrip s with
  | '+' :: rest => core rest
  | '-' :: rest => (core rest).map Neg.neg
  | rest => core rest

/-- Model of `remove_dollar_sign_float` from src/data_processing.py
lines 160-171: like `remove_dollar_sign` but with `float(...)`; `float`
of the missing marker is `nan` itself (a float already). -/
def remove_dollar_sign_float (v : Value) : Except PyError Value :=
  match v with
  | .str s =>
    match pyFloatOfString (pyReplaceDollar s) with
    | some q => .ok (.float q)
    | none => .error .valueError
  | .int n => .ok (.float (mkRat n 1))
  | .float q => .ok (.float q)
  | .bool b => .ok (.float (if b then mkRat 1 1 else mkRat 0 1))
  | .nan => .ok .nan

/-- Model of `process_column` from src/data_processing.py lines 178-189:
the string N/A for a missing value; for a float, `str(int(v))` when
`v.is_integer()` else `str(v)`; ints and bools also satisfy `is_integer`
(Python ≥ 3.12) and print as `str(int(v))`; a string input has no
`is_integer` attribute and raises `AttributeError`. -/
def process_column (v : Value) : Except PyError Value :=
  match v with
  | .nan => .ok (.str ("N/A".data))
  | .float q =>
    .ok (.str (if q.den = 1 then (toString (ratTrunc q)).data else pyFloatRepr q))
  | .int n => .ok (.str (toString n).data)
  | .bool b => .ok (.str (toString (if b then (1 : Int) else 0)).data)
  | .str _ => .error .attributeError

/-- Modelled from the spec: `normalizeColumnLabel` per the spec's words,
on its stated input domain (a missing value or a numeric/float value):
missing maps to the string N/A; an integral-valued number maps to its
integer string form (no trailing `.0`); otherwise the string form of the
value unchanged. -/
def normalizeColumnLabelSpec : Option Rat → List Char
  | none => "N/A".data
  | some q => if q.den = 1 then (toString q.num).data else pyFloatRepr q

/-- Injection of `normalizeColumnLabel`'s stated input domain (missing
or float) into the cell-value type. -/
def labelValue : Option Rat → Value
  | none => .nan
  | some q => .float q

/-- Test `leadsWith pre s`: `s` begins with the character list `pre`. -/
def leadsWith : List Char → List Char → Bool
  | [], _ => true
  | _ :: _, [] => false
  | a :: as, b :: bs => a = b && leadsWith as bs

/-- Model of `text.split(". ")` (src/utilities.py line 34): split on
each occurrence of the two-character separator, scanning left to right;
`fuel` bounds the recursion by the text length. -/
def splitDotSpace : Nat → List Char → List Char → List (List Char)
  | 0, s, acc => [acc.reverse ++ s]
  | fuel + 1, s, acc =>
    match s with
    | [] => [acc.reverse]
    | c :: cs =>
      if leadsWith ['.', ' '] s then
        acc.reverse :: splitDotSpace fuel (s.drop 2) []
      else
        splitDotSpace fuel cs (c :: acc)

/-- Model of `remove_incomplete_sentence` from src/utilities.py lines
25-37, on the character list: split on the dot-space separator, drop the
last piece unless the text ends with `'.'`, and re-join with the
dot-space separator. -/
def removeIncompleteSentenceCore (text : List Char) : List Char :=
  let sentences := splitDotSpace (text.length + 1) text []
  let sentences := if text.getLast? = some '.' then sentences else sentences.dropLast
  List.intercalate ['.', ' '] sentences

/-- Model of `remove_incomplete_sentence` as invocable on a cell value:
defined for strings; any other value lacks `.split` and raises
`AttributeError`. -/
def remove_incomplete_sentence (v : Value) : Except PyError Value :=
  match v with
  | .str s => .ok (.str (removeIncompleteSentenceCore s))
  | _ => .error .attributeError

/-! ## Transformation engine (src/data_processing.py lines 12-48) -/

/-- A DataFrame: ordered association list from column name to the
column's values (column names are unique and columns equal-length per
the data model's invariant; neither is needed by the definitions). -/
abbrev Df := List (String × List Value)

/-- Model of the test `column in df.columns` (src/data_processing.py
line 23). -/
def hasCol (df : Df) (col : String) : Bool :=
  df.any (fun p => p.1 = col)

/-- Read of `df[column]` for a present column. -/
def getCol (df : Df) (col : String) : List Value :=
  match df.find? (fun p => p.1 = col) with
  | some p => p.2
  | none => []

/-- Write of `df[column] = vs`: in-place replacement of an existing
column's values. -/
def setCol (df : Df) (col : String) (vs : List Value) : Df :=
  df.map (fun p => if p.1 = col then (p.1, vs) else p)

/-- The `apply` entry of a column's configuration, an object with a
`type` field and a `function` field (src/data_processing.py lines
38-39). -/
structure ApplyCfg where
  ty : String
  fn : String
deriving DecidableEq, Repr

/-- One column's transformation dictionary: the engine reads only the
keys `map`, `astype` and `apply` (`transformations.get(...)`, absent key
= `None`). A `map` value is the JSON object's key-value pairs in
order. -/
structure ColTrans where
  map : Option (List (Value × Value)) := none
  astype : Option String := none
  apply : Option ApplyCfg := none
deriving DecidableEq, Repr

/-- Dictionary lookup performed by `Series.map(mapping)` for one cell:
first pair whose key equals the cell. A missing value never matches a
key (`float('nan')` compares unequal to itself, and JSON object keys —
the only way this program builds a mapping — cannot encode `NaN`). -/
def mapLookup (m : List (Value × Value)) (v : Value) : Option Value :=
  if v = .nan then none
  else (m.find? (fun p => decide (p.1 = v))).map (fun p => p.2)

/-- Model of `df[column].map(mapping)` (src/data_processing.py line 27,
first half): per element, the mapped value when the cell is a key, else
the missing marker. -/
def pdSeriesMap (m : List (Value × Value)) (l : List Value) : List Value :=
  l.map (fun v => (mapLookup m v).getD .nan)

/-- Model of `s.fillna(other)`: positionally replace each missing entry
of `s` with the corresponding entry of `other`. -/
def fillnaSeries (s other : List Value) : List Value :=
  List.zipWith (fun x o => if x = .nan then o else x) s other

/-- The whole of src/data_processing.py line 27 applied to one column:
`df[column].map(mapping).fillna(df[column])`. -/
def mapStep (m : List (Value × Value)) (l : List Value) : List Value :=
  fillnaSeries (pdSeriesMap m l) l

/-- Modelled from the spec: the spec's map law applied to one column —
replace each value `v` by `mapping[v]` exactly when `v` is a key of the
mapping, else leave `v` unchanged. -/
def mapStepSpec (m : List (Value × Value)) (l : List Value) : List Value :=
  l.map (fun v => (mapLookup m v).getD v)

/-- Model of `astype` conversion of one cell. pandas `astype` on the
object columns of this program converts per element: to `int` like
Python `int(v)` (failing on non-integer text and on the missing marker),
to `float` like Python `float(v)` (the missing marker stays missing), to
`str` like Python `str(v)` (the missing marker prints as the string
nan); an unrecognized dtype string raises `TypeError`. -/
def astypeVal (ty : String) (v : Value) : Except PyError Value :=
  if ty = "int" || ty = "int64" then
    match v with
    | .str s => match pyIntOfString s with
        | some n => .ok (.int n)
        | none => .error .valueError
    | .int n => .ok (.int n)
    | .float q => .ok (.int (ratTrunc q))
    | .bool b => .ok (.int (if b then 1 else 0))
    | .nan => .error .valueError
  else if ty = "float" || ty = "float64" then
    match v with
    | .str s => match pyFloatOfString s with
        | some q => .ok (.float q)
        | none => .error .valueError
    | .int n => .ok (.float (mkRat n 1))
    | .float q => .ok (.float q)
    | .bool b => .ok (.float (if b then mkRat 1 1 else mkRat 0 1))
    | .nan => .ok .nan
  else if ty = "str" || ty = "object" then
    .ok (.str (pyStrOfValue v))
  else
    .error .typeError

/-- Model of `df[column].astype(astype)` (src/data_processing.py line
32) on one column: elementwise conversion, a raised conversion error
propagating. -/
def astypeSeries (ty : String) (l : List Value) : Except PyError (List Value) :=
  l.mapM (astypeVal ty)

/-- The module-level callables of `data_processing.py`, as resolvable by
`globals().get(function_name)` (src/data_processing.py line 40): the
functions defined in the module, the function imported from
`utilities.py`, and the imported modules `pd`, `json`, `openai`,
`base64` (bound objects that are not single-argument cell functions). -/
inductive PyGlobal where
  | removeDollarSignF
  | removeDollarSignFloatF
  | processColumnF
  | removeIncompleteSentenceF
  | quoteIdentifierF
  | processSqlQueryF
  | applyTransformationsF
  | chatGPTAnalysisF
  | toCsvDownloadLinkF
  | moduleObj (name : String)
deriving DecidableEq, Repr

/-- Model of `globals().get(function_name)` in `data_processing.py`: the
module's global namespace, fixed at import time (nothing in the program
mutates it). Dunder entries are omitted; every name outside the table
yields `None`. -/
def moduleGlobals (name : String) : Option PyGlobal :=
  if name = "remove_dollar_sign" then some .removeDollarSignF
  else if name = "remove_dollar_sign_float" then some .removeDollarSignFloatF
  else if name = "process_column" then some .processColumnF
  else if name = "remove_incomplete_sentence" then some .removeIncompleteSentenceF
  else if name = "quote_identifier" then some .quoteIdentifierF
  else if name = "process_sql_query" then some .processSqlQueryF
  else if name = "apply_transformations" then some .applyTransformationsF
  else if name = "chatGPT_analysis" then some .chatGPTAnalysisF
  else if name = "to_csv_download_link" then some .toCsvDownloadLinkF
  else if name = "pd" then some (.moduleObj ("pandas"))
  else if name = "json" then some (.moduleObj ("json"))
  else if name = "openai" then some (.moduleObj ("openai"))
  else if name = "base64" then some (.moduleObj ("base64"))
  else none

/-- Calling one resolved global on one cell value, as
`df[column].apply(custom_function)` does per element. The cell-value
normalizers compute; `quote_identifier`/`process_sql_query` work on
strings only (`AttributeError` otherwise); the two-parameter functions
(`apply_transformations`, `to_csv_download_link`) raise `TypeError`
for a missing argument; `chatGPT_analysis(v)` immediately evaluates
`v.sample(...)`, an `AttributeError` on every cell value; a module
object is not callable (`TypeError`). -/
def callGlobal (f : PyGlobal) (v : Value) : Except PyError Value :=
  match f with
  | .removeDollarSignF => remove_dollar_sign v
  | .removeDollarSignFloatF => remove_dollar_sign_float v
  | .processColumnF => process_column v
  | .removeIncompleteSentenceF => remove_incomplete_sentence v
  | .quoteIdentifierF =>
    match v with
    | .str s => .ok (.str (quoteIdentifierCore s))
    | _ => .error .attributeError
  | .processSqlQueryF =>
    match v with
    | .str s => .ok (.str (joinSpace (scanQuoteAux [] (pySplit s))))
    | _ => .error .attributeError
  | .applyTransformationsF => .error .typeError
  | .chatGPTAnalysisF => .error .attributeError
  | .toCsvDownloadLinkF => .error .typeError
  | .moduleObj _ => .error .typeError

/-- Model of `df[column].apply(custom_function)` (src/data_processing.py
line 42): elementwise call, a raised exception propagating. -/
def seriesApply (f : PyGlobal) (l : List Value) : Except PyError (List Value) :=
  l.mapM (callGlobal f)

/-- The body of the `for` loop for one configured column that is present
in the DataFrame (src/data_processing.py lines 25-44), in the fixed
source order map → astype → apply. Each step rebinds `df[column]`.
In the apply step, `globals().get` failure takes the `else` branch,
whose `st.warning(...)` raises `NameError`: `data_processing.py` never
imports streamlit, so the name `st` is unbound. -/
def applyColumn (df : Df) (col : String) (t : ColTrans) : Except PyError Df := do
  let df := match t.map with
    | none => df
    | some m => setCol df col (mapStep m (getCol df col))
  let df ← match t.astype with
    | none => pure df
    | some ty => do
        let vs ← astypeSeries ty (getCol df col)
        pure (setCol df col vs)
  match t.apply with
  | none => pure df
  | some ac =>
    if ac.ty = "custom" then
      match moduleGlobals ac.fn with
      | some f => do
          let vs ← seriesApply f (getCol df col)
          pure (setCol df col vs)
      | none => .error (.nameError ("st".data))
    else
      pure df

/-- Model of `apply_transformations` from src/data_processing.py lines
12-48: iterate the configuration's items in order; a configured column
that is absent from the DataFrame takes the `else` branch of line 46,
whose `st.warning(...)` (line 47) raises `NameError` because `st` is
unbound in `data_processing.py`; finally `return df`. -/
def apply_transformations (df : Df) (config : List (String × ColTrans)) :
    Except PyError Df :=
  match config with
  | [] => .ok df
  | (col, t) :: rest =>
    if hasCol df col then
      match applyColumn df col t with
      | .ok df2 => apply_transformations df2 rest
      | .error e => .error e
    else
      .error (.nameError ("st".data))

/-! ## Object-identity model of the engine

Python passes the DataFrame by reference and `df[column] = ...` mutates
the referenced object in place. To talk about aliasing we run the same
loop over an explicit heap: a list of DataFrame objects indexed by
reference, with `apply_transformations` receiving a reference, mutating
the heap cell it designates after each column, and returning the
reference (`return df`, src/data_processing.py line 48). The caller in
src/streamlit_interface.py line 148 binds that returned reference to
`trans_df` while `original_df` still holds the argument reference. -/

/-- Model of `apply_transformations` with the DataFrame object on an
explicit heap: same loop as `apply_transformations`, but each column's
in-place column assignment overwrites the heap cell `r`. -/
def apply_transformations_ref (h : List Df) (r : Nat)
    (config : List (String × ColTrans)) : Except PyError (List Df × Nat) :=
  match config with
  | [] => .ok (h, r)
  | (col, t) :: rest =>
    if hasCol (h.getD r []) col then
      match applyColumn (h.getD r []) col t with
      | .ok df2 => apply_transformations_ref (h.set r df2) r rest
      | .error e => .error e
    else
      .error (.nameError ("st".data))

/-- Modelled from the spec: the Named Function Registry — a fixed,
closed mapping from string identifier to a single-argument cell-value
function, whose entries are the §4.2 normalizers (currency-to-int,
currency-to-float, column-label normalization), under the
configuration-facing names this repository's configurations use. -/
def namedFunctionRegistrySpec : List (String × (Value → Except PyError Value)) :=
  [("remove_dollar_sign", remove_dollar_sign),
   ("remove_dollar_sign_float", remove_dollar_sign_float),
   ("process_column", process_column)]

/-- The identifiers of the spec's Named Function Registry. -/
def registryKeys : List String := namedFunctionRegistrySpec.map (fun p => p.1)

/-! ## Theorems -/

theorem getLast?_cons_append {α : Type} (a b : α) (l : List α) :
    ((a :: (l ++ [b])) : List α).getLast? = some b := by
  induction l generalizing a with
  | nil => rfl
  | cons c cs ih =>
    rw [List.cons_append, List.getLast?_cons_cons]
    exact ih c

theorem isWrapped_quoteIdentifierCore (s : List Char) :
    isWrappedInQuotes (quoteIdentifierCore s) = true := by
  unfold quoteIdentifierCore
  by_cases h : isWrappedInQuotes s
  · simp [h]
  · simp only [h, Bool.false_eq_true, if_false]
    unfold isWrappedInQuotes
    simp [getLast?_cons_append]

theorem quoteIdentifierCore_of_wrapped (t : List Char)
    (h : isWrappedInQuotes t = true) : quoteIdentifierCore t = t := by
  unfold quoteIdentifierCore
  rw [h]
  simp

theorem quoteIdentifierCore_idem (s : List Char) :
    quoteIdentifierCore (quoteIdentifierCore s) = quoteIdentifierCore s :=
  quoteIdentifierCore_of_wrapped _ (isWrapped_quoteIdentifierCore s)

/-- C4: `quoteIdentifier` is idempotent on every string, and on every
string not already wrapped in double quotes at both ends
(`startswith('"') and endswith('"')` both failing) it strips the
embedded double-quote characters and wraps the result in one fresh pair
of double quotes. -/
theorem claim_C4_quote_identifier_idempotent :
    (∀ s : String, quote_identifier (quote_identifier s) = quote_identifier s) ∧
    (∀ s : String, isWrappedInQuotes s.data = false →
      quote_identifier s = String.mk ('"' :: (s.data.filter (fun c => c ≠ '"')) ++ ['"'])) := by
  constructor
  · intro s
    show String.mk (quoteIdentifierCore (quoteIdentifierCore s.data)) =
      String.mk (quoteIdentifierCore s.data)
    rw [quoteIdentifierCore_idem]
  · intro s h
    show String.mk (quoteIdentifierCore s.data) = _
    unfold quoteIdentifierCore
    rw [h]
    simp

/-- C4 witness: the theorem applied at a concrete identifier with
embedded quotes (not wrapped in quotes), for both conjuncts. -/
theorem claim_C4_witness :
    quote_identifier (quote_identifier ("or\"de\"rs")) = quote_identifier ("or\"de\"rs") ∧
    quote_identifier ("or\"de\"rs") = "\"orders\"" := by
  refine ⟨claim_C4_quote_identifier_idempotent.1 _, ?_⟩
  have h := claim_C4_quote_identifier_idempotent.2 ("or\"de\"rs") (by decide)
  rw [h]
  decide

theorem scanQuoteAux_length (prev : List Char) (ts : List (List Char)) :
    (scanQuoteAux prev ts).length = ts.length := by
  induction ts generalizing prev with
  | nil => rfl
  | cons w ws ih => simp [scanQuoteAux, ih]

theorem scanQuoteAux_get?_succ (ts : List (List Char)) :
    ∀ (prev : List Char) (i : Nat) (p w : List Char),
      (scanQuoteAux prev ts).get? i = some p →
      ts.get? (i + 1) = some w →
      (scanQuoteAux prev ts).get? (i + 1) =
        some (if isFromJoin p then quoteIdentifierCore w else w) := by
  induction ts with
  | nil => intro prev i p w h; simp [scanQuoteAux] at h
  | cons t ts ih =>
    intro prev i p w hp hw
    match i with
    | 0 =>
      simp only [scanQuoteAux, List.get?] at hp hw ⊢
      cases hp
      match ts, hw with
      | u :: us, hw =>
        simp only [List.get?] at hw
        cases hw
        simp [scanQuoteAux]
    | Nat.succ n =>
      simp only [scanQuoteAux, List.get?] at hp hw ⊢
      exact ih _ n p w hp hw

/-- C3 counterexample: on a query in which FROM immediately follows
FROM, the second FROM is itself quoted (its predecessor is FROM), so
when the scan reaches the next token `y` the immediately preceding token
of the tokenization is FROM, yet the code does not quote `y` — the code
compares against the already-quoted previous token. The spec-modelled
scan, which compares against the original preceding token, quotes
`y`. -/
theorem claim_C3_counterexample :
    process_sql_query ("x FROM FROM y") = "x FROM \"FROM\" y" ∧
    preprocessQuerySpec ("x FROM FROM y") = "x FROM \"FROM\" \"y\"" ∧
    process_sql_query ("x FROM FROM y") ≠ preprocessQuerySpec ("x FROM FROM y") := by
  refine ⟨by decide, by decide, by decide⟩

/-- C3 amended: `process_sql_query` tokenizes on whitespace, scans left
to right and joins with single spaces, but applies `quoteIdentifier` to
exactly those tokens whose immediately preceding *processed* token (the
previous token as already emitted, i.e. after any quoting) equals FROM
or JOIN case-insensitively; the first token is never quoted; both of the
spec's concrete examples hold. -/
theorem claim_C3_amended_preprocess_query :
    (∀ prev ts, (scanQuoteAux prev ts).length = ts.length) ∧
    (∀ ts w, ts.get? 0 = some w → (scanQuoteAux [] ts).get? 0 = some w) ∧
    (∀ ts i p w,
      (scanQuoteAux [] ts).get? i = some p →
      ts.get? (i + 1) = some w →
      (scanQuoteAux [] ts).get? (i + 1) =
        some (if isFromJoin p then quoteIdentifierCore w else w)) ∧
    process_sql_query ("SELECT * FROM orders") = "SELECT * FROM \"orders\"" ∧
    process_sql_query ("SELECT * FROM \"orders\" JOIN items") =
      "SELECT * FROM \"orders\" JOIN \"items\"" := by
  refine ⟨scanQuoteAux_length, ?_, fun ts i p w => scanQuoteAux_get?_succ ts [] i p w,
    by decide, by decide⟩
  intro ts w h
  match ts, h with
  | u :: us, h =>
    simp only [List.get?] at h
    cases h
    simp [scanQuoteAux, isFromJoin]

/-- C3 amended witness: the quantified conjuncts applied to the token
list of a two-token query FROM orders. -/
theorem claim_C3_amended_witness :
    (scanQuoteAux [] [("FROM".data), ("orders".data)]).get? 1 =
      some (if isFromJoin ("FROM".data) then quoteIdentifierCore ("orders".data)
            else "orders".data) ∧
    (scanQuoteAux [] [("FROM".data), ("orders".data)]).get? 0 = some ("FROM".data) := by
  refine ⟨claim_C3_amended_preprocess_query.2.2.1 [("FROM".data), ("orders".data)] 0
      ("FROM".data) ("orders".data) (by decide) (by decide),
    claim_C3_amended_preprocess_query.2.1 [("FROM".data), ("orders".data)]
      ("FROM".data) (by decide)⟩

/-- C9: applying the transformation engine with the empty configuration
returns the dataset unchanged: the `for` loop body never runs and the
function returns its argument. -/
theorem claim_C9_empty_config_identity (df : Df) :
    apply_transformations df [] = .ok df := rfl

theorem mapStep_pointwise (m : List (Value × Value)) (l : List Value) :
    mapStep m l = l.map (fun v =>
      match mapLookup m v with
      | some w => if w = .nan then v else w
      | none => v) := by
  induction l with
  | nil => rfl
  | cons v vs ih =>
    have hstep : mapStep m (v :: vs) =
        (if (mapLookup m v).getD .nan = .nan then v else (mapLookup m v).getD .nan) ::
          mapStep m vs := rfl
    rw [hstep, ih, List.map_cons]
    congr 1
    cases h : mapLookup m v with
    | none => simp
    | some w =>
      by_cases hw : w = Value.nan <;> simp [hw]

/-- C1 counterexample: a mapping entry whose replacement value is the
missing marker (JSON `null`) is *not* applied — `fillna` restores the
original value — although the cell is a key of the mapping, so the
engine does not replace every value that is a mapping key. -/
theorem claim_C1_counterexample_nan_replacement :
    apply_transformations [("c", [.str ("x".data)])]
        [("c", { map := some [(.str ("x".data), .nan)] })] =
      .ok [("c", [.str ("x".data)])] ∧
    mapStepSpec [(.str ("x".data), .nan)] [.str ("x".data)] = [.nan] ∧
    ([Value.str ("x".data)] : List Value) ≠ [Value.nan] :=
  ⟨by decide, by decide, by decide⟩

/-- C1 amended: for a `map` operation on an existing column, each value
`v` is replaced by `mapping[v]` exactly when `v` is a key of the mapping
*and* the mapped value is not a missing value (`null`/`NaN`); every
value that is not a mapping key — and every value whose mapped value is
missing — is left unchanged, never an error. Concrete engine run
included. -/
theorem claim_C1_amended_map_identity_fallback :
    (∀ (m : List (Value × Value)) (l : List Value),
      mapStep m l = l.map (fun v =>
        match mapLookup m v with
        | some w => if w = .nan then v else w
        | none => v)) ∧
    apply_transformations [("c", [.str ("a".data), .str ("b".data)])]
        [("c", { map := some [(.str ("a".data), .str ("z".data))] })] =
      .ok [("c", [.str ("z".data), .str ("b".data)])] :=
  ⟨mapStep_pointwise, by decide⟩

/-- C2: the claim describes the intended recoverable warning, but
`data_processing.py` never imports streamlit, so the `st.warning(...)`
on its line 47 raises NameError — the name `st` is not defined: a config
entry for a column absent from the DataFrame aborts the call with an
exception, emits no warning, and leaves the remaining configured columns
unprocessed. -/
theorem claim_C2_missing_column_raises_name_error :
    apply_transformations [("a", [.int 1]), ("b", [.int 2])]
        [("nonexistent", {}), ("b", { map := some [(.int 2, .int 3)] })] =
      .error (.nameError ("st".data)) := by decide

/-- C6: same slip as C2 — when the configured `apply` function name is
not found by `globals().get`, the `else` branch's `st.warning(...)`
(src/data_processing.py line 44) raises `NameError` because `st` is
unbound in that module: the step is not skipped with a warning, the call
aborts. -/
theorem claim_C6_unknown_function_raises_name_error :
    apply_transformations [("a", [.str ("x".data)])]
        [("a", { apply := some ⟨"custom", "no_such_function"⟩ })] =
      .error (.nameError ("st".data)) ∧
    moduleGlobals ("no_such_function") = none :=
  ⟨by decide, by decide⟩

theorem applyColumn_apply_only (df : Df) (col fname : String) :
    applyColumn df col { map := none, astype := none, apply := some ⟨"custom", fname⟩ } =
      (match moduleGlobals fname with
       | some f => Except.map (setCol df col) (seriesApply f (getCol df col))
       | none => .error (.nameError ("st".data))) := by
  cases hg : moduleGlobals fname with
  | none => simp [applyColumn, hg]
  | some f =>
    cases hs : seriesApply f (getCol df col) with
    | ok vs => simp [applyColumn, hg, hs, Except.map]
    | error e => simp [applyColumn, hg, hs, Except.map]

/-- C5 counterexample: `remove_incomplete_sentence` is not an entry of
the spec's closed cell-value registry, yet `globals().get` resolves it
(it is imported at module level in `data_processing.py`) and the engine
invokes it on the column's values, changing them. -/
theorem claim_C5_counterexample_open_resolution :
    ("remove_incomplete_sentence" ∉ registryKeys) ∧
    moduleGlobals ("remove_incomplete_sentence") = some .removeIncompleteSentenceF ∧
    apply_transformations [("a", [.str ("hi. bye".data)])]
        [("a", { apply := some ⟨"custom", "remove_incomplete_sentence"⟩ })] =
      .ok [("a", [.str ("hi".data)])] ∧
    Value.str ("hi".data) ≠ Value.str ("hi. bye".data) :=
  ⟨by decide, by decide, by decide, by decide⟩

/-- C5 amended: the `apply` function name is resolved against the
`data_processing` module's global namespace — fixed at import time, and
containing, besides the cell-value normalizers, every other module-level
binding (other functions and imported modules). Every registry name
resolves, but so do names outside the registry; a resolved name has its
bound object applied to the column's values, and only an unbound name
falls through (to the warning line that raises `NameError`). -/
theorem claim_C5_amended_globals_resolution :
    (∀ k, k ∈ registryKeys → moduleGlobals k ≠ none) ∧
    ("remove_incomplete_sentence" ∉ registryKeys ∧
      moduleGlobals ("remove_incomplete_sentence") = some .removeIncompleteSentenceF) ∧
    (∀ (df : Df) (col fname : String) (f : PyGlobal),
      moduleGlobals fname = some f →
      applyColumn df col { map := none, astype := none, apply := some ⟨"custom", fname⟩ } =
        Except.map (setCol df col) (seriesApply f (getCol df col))) ∧
    (∀ (df : Df) (col fname : String),
      moduleGlobals fname = none →
      applyColumn df col { map := none, astype := none, apply := some ⟨"custom", fname⟩ } =
        .error (.nameError ("st".data))) := by
  refine ⟨?_, ⟨by decide, by decide⟩, ?_, ?_⟩
  · intro k hk
    simp only [registryKeys, namedFunctionRegistrySpec, List.map, List.mem_cons,
      List.mem_singleton, List.not_mem_nil, or_false] at hk
    rcases hk with h | h | h <;> subst h <;> decide
  · intro df col fname f hf
    rw [applyColumn_apply_only, hf]
  · intro df col fname hf
    rw [applyColumn_apply_only, hf]

/-- C5 amended witness: the quantified conjuncts applied at the registry
name `process_column`, at a DataFrame with one missing value, and at an
unbound name. -/
theorem claim_C5_amended_witness :
    moduleGlobals ("process_column") ≠ none ∧
    applyColumn [("a", [Value.nan])] ("a")
        { map := none, astype := none, apply := some ⟨"custom", "process_column"⟩ } =
      Except.map (setCol [("a", [Value.nan])] ("a"))
        (seriesApply .processColumnF (getCol [("a", [Value.nan])] ("a"))) ∧
    applyColumn [("a", [Value.nan])] ("a")
        { map := none, astype := none, apply := some ⟨"custom", "missing_fn"⟩ } =
      .error (.nameError ("st".data)) :=
  ⟨claim_C5_amended_globals_resolution.1 ("process_column") (by decide),
   claim_C5_amended_globals_resolution.2.2.1 _ _ _ _ (by decide),
   claim_C5_amended_globals_resolution.2.2.2 _ _ _ (by decide)⟩

/-- C7 counterexample: on a textual value with a trailing (non-leading)
dollar sign, the code removes that dollar sign too and parses the rest,
while the spec's leading-symbol-stripping function finds the text
unparseable and fails with a parse error. -/
theorem claim_C7_counterexample_nonleading_dollar :
    remove_dollar_sign (.str ("5$".data)) = .ok (.int 5) ∧
    stripCurrencyToIntSpec (.str ("5$".data)) = .error .valueError :=
  ⟨by decide, by decide⟩

/-- C7 amended: `stripCurrencyToInt` strips *every* dollar-sign
character of a textual value (not only a leading symbol) and parses the
remainder as an integer, failing with a parse error exactly when that
dollar-stripped text is not integer-parseable; an already numeric value
truncates/casts to integer. -/
theorem claim_C7_amended_remove_dollar_sign :
    (∀ s n, remove_dollar_sign (.str s) = .ok (.int n) ↔
      pyIntOfString (pyReplaceDollar s) = some n) ∧
    (∀ s, remove_dollar_sign (.str s) = .error .valueError ↔
      pyIntOfString (pyReplaceDollar s) = none) ∧
    (∀ q, remove_dollar_sign (.float q) = .ok (.int (ratTrunc q))) ∧
    (∀ n, remove_dollar_sign (.int n) = .ok (.int n)) ∧
    remove_dollar_sign (.str ("$100".data)) = .ok (.int 100) := by
  refine ⟨?_, ?_, fun q => rfl, fun n => rfl, by decide⟩
  · intro s n
    unfold remove_dollar_sign
    cases h : pyIntOfString (pyReplaceDollar s) <;> simp [h]
  · intro s
    unfold remove_dollar_sign
    cases h : pyIntOfString (pyReplaceDollar s) <;> simp [h]

/-- C7 amended witness: the success direction of the theorem applied at
a concrete dollar-prefixed string. -/
theorem claim_C7_amended_witness :
    remove_dollar_sign (.str ("$7".data)) = .ok (.int 7) :=
  (claim_C7_amended_remove_dollar_sign.1 ("$7".data) 7).mpr (by decide)

theorem ratTrunc_den_one (q : Rat) (h : q.den = 1) : ratTrunc q = q.num := by
  unfold ratTrunc
  rw [h]
  exact Int.tdiv_one q.num

/-- C8: `normalizeColumnLabel` (`process_column`) is total on its stated
input domain (a missing value or a float): a missing value yields the
literal string N/A, an integral-valued float yields its integer string
form with no trailing `.0` (5.0 prints as the string 5), and any other
float yields its string form unchanged (5.5 prints as the string
5.5). -/
theorem claim_C8_normalize_column_label :
    (∀ x : Option Rat,
      process_column (labelValue x) = .ok (.str (normalizeColumnLabelSpec x))) ∧
    process_column Value.nan = .ok (.str ("N/A".data)) ∧
    process_column (.float (mkRat 5 1)) = .ok (.str ("5".data)) ∧
    process_column (.float (mkRat 11 2)) = .ok (.str ("5.5".data)) := by
  refine ⟨?_, by decide, by decide, by decide⟩
  intro x
  cases x with
  | none => rfl
  | some q =>
    show Except.ok (Value.str (if q.den = 1 then (toString (ratTrunc q)).data
        else pyFloatRepr q)) = _
    unfold normalizeColumnLabelSpec
    by_cases h : q.den = 1
    · simp [h, ratTrunc_den_one q h]
    · simp [h]

theorem listGetD_set_self (h : List Df) (r : Nat) (v : Df) (hr : r < h.length) :
    (h.set r v).getD r [] = v := by
  induction h generalizing r with
  | nil => simp at hr
  | cons a as ih =>
    cases r with
    | zero => rfl
    | succ n => exact ih n (Nat.lt_of_succ_lt_succ hr)

theorem listSet_getD_self (h : List Df) (r : Nat) (hr : r < h.length) :
    h.set r (h.getD r []) = h := by
  induction h generalizing r with
  | nil => rfl
  | cons a as ih =>
    cases r with
    | zero => rfl
    | succ n =>
      show a :: as.set n (as.getD n []) = a :: as
      rw [ih n (Nat.lt_of_succ_lt_succ hr)]

/-- C10: running the engine over an explicit heap of DataFrame objects,
a successful `apply_transformations` call returns exactly the reference
it was given (`r2 = r`), the heap cell behind that reference now holds
the transformed DataFrame (the value-level `apply_transformations` of
the old content), and the final heap is the initial heap with that one
cell overwritten — the untransformed original content is preserved
nowhere. -/
theorem claim_C10_returns_same_mutated_object :
    ∀ (config : List (String × ColTrans)) (h : List Df) (r : Nat)
      (h2 : List Df) (r2 : Nat),
      r < h.length →
      apply_transformations_ref h r config = .ok (h2, r2) →
      r2 = r ∧
      apply_transformations (h.getD r []) config = .ok (h2.getD r []) ∧
      h2 = h.set r (h2.getD r []) := by
  intro config
  induction config with
  | nil =>
    intro h r h2 r2 hr heq
    simp only [apply_transformations_ref] at heq
    cases heq
    exact ⟨rfl, rfl, (listSet_getD_self h r hr).symm⟩
  | cons ct rest ih =>
    intro h r h2 r2 hr heq
    obtain ⟨col, t⟩ := ct
    simp only [apply_transformations_ref] at heq
    by_cases hc : hasCol (h.getD r []) col
    · rw [if_pos hc] at heq
      cases ha : applyColumn (h.getD r []) col t with
      | error e => rw [ha] at heq; cases heq
      | ok df2 =>
        rw [ha] at heq
        have hlen : r < (h.set r df2).length := by
          rw [List.length_set]; exact hr
        obtain ⟨e1, e2, e3⟩ := ih (h.set r df2) r h2 r2 hlen heq
        rw [listGetD_set_self h r df2 hr] at e2
        refine ⟨e1, ?_, ?_⟩
        · simp only [apply_transformations]
          rw [if_pos hc, ha]
          exact e2
        · rw [List.set_set] at e3
          exact e3
    · rw [if_neg hc] at heq
      cases heq

/-- C10 witness: the theorem applied to a one-object heap and a one-map
configuration: the returned reference equals the argument reference and
the cell was overwritten with the transformed DataFrame. -/
theorem claim_C10_witness :
    (0 : Nat) = 0 ∧
    apply_transformations ([[("a", [Value.int 1])]] : List Df).head!
        [("a", { map := some [(.int 1, .int 2)] })] =
      .ok ([[("a", [Value.int 2])]] : List Df).head! ∧
    ([[("a", [Value.int 2])]] : List Df) =
      ([[("a", [Value.int 1])]] : List Df).set 0 [("a", [Value.int 2])] := by
  have h := claim_C10_returns_same_mutated_object
      [("a", { map := some [(.int 1, .int 2)] })]
      [[("a", [Value.int 1])]] 0 [[("a", [Value.int 2])]] 0
      (by decide) (by decide)
  exact h
